import Mathlib

/- Shallow embedding of inox2d's OpenGL renderer (src/renderers/opengl/mod.rs)
   and the node data model it draws. GPU commands are modelled as a symbolic
   trace of GlCall values; Rust f32 values are modelled as rationals (NaN and
   signed-zero behaviour is out of scope); machine-integer sizes do not matter
   for any property proved here, so u32/usize are modelled as Nat. -/

namespace Inox

/-- Scalar clamp, mirroring f32::clamp / glam componentwise clamp for non-NaN
inputs: raise to the lower bound, then cap at the upper bound. -/
def ratClamp (x lo hi : Rat) : Rat := min (max x lo) hi

structure Vec2 where
  x : Rat
  y : Rat
  deriving DecidableEq, Repr

structure Vec3 where
  x : Rat
  y : Rat
  z : Rat
  deriving DecidableEq, Repr

def Vec3.add (a b : Vec3) : Vec3 := ⟨a.x + b.x, a.y + b.y, a.z + b.z⟩

def Vec3.zero : Vec3 := ⟨0, 0, 0⟩

/-- glam Vec3::truncate: drop the z component. -/
def Vec3.truncate (v : Vec3) : Vec2 := ⟨v.x, v.y⟩

/-- Sum of a list of vectors, as Iterator::sum over glam Vec3. -/
def vec3Sum : List Vec3 → Vec3
  | [] => Vec3.zero
  | v :: rest => v.add (vec3Sum rest)

/-- glam Vec3::clamp(Vec3::ZERO, Vec3::ONE): componentwise clamp to [0, 1]. -/
def vec3Clamp01 (v : Vec3) : Vec3 := ⟨ratClamp v.x 0 1, ratClamp v.y 0 1, ratClamp v.z 0 1⟩

/-- Modelled from the spec: crate::math::camera::Camera is outside src/.
Section 4.1 of the spec names its three sub-fields: position, rotation, scale. -/
structure Camera where
  position : Vec2
  rotation : Rat
  scale : Vec2
  deriving DecidableEq, Repr

/-- Modelled from the spec: crate::math::transform::Transform is outside src/.
Section 3 of the spec gives a translation/rotation/scale transform; only the
translation component is read by the renderer code under src/. -/
structure Transform where
  translation : Vec3
  rotation : Vec3
  scale : Vec2
  deriving DecidableEq, Repr

/-- Modelled from the spec: BlendMode (nodes/node_data.rs) is outside src/.
The seven modes are listed in spec section 4.4 and matched exhaustively by
set_blend_mode in src/renderers/opengl/mod.rs. -/
inductive BlendMode where
  | Normal
  | Multiply
  | ColorDodge
  | LinearDodge
  | Screen
  | ClipToLower
  | SliceFromLower
  deriving DecidableEq, Repr

/-- Modelled from the spec: MaskMode (nodes/node_data.rs) is outside src/.
Spec section 3: mode is Mask or Dodge. -/
inductive MaskMode where
  | Mask
  | Dodge
  deriving DecidableEq, Repr

/-- Modelled from the spec: Mask (nodes/node_data.rs) is outside src/.
Spec section 3: a source node id plus a mode. Node ids are modelled as Nat. -/
structure Mask where
  source : Nat
  mode : MaskMode
  deriving DecidableEq, Repr

/-- Modelled from the spec: mesh data (vertex positions, UVs, triangle
indices); only indices.length is read by the renderer code under src/. -/
structure Mesh where
  verts : List Vec2
  uvs : List Vec2
  indices : List Nat
  deriving DecidableEq, Repr

/-- Modelled from the spec: the part draw state (nodes/node_data.rs is outside
src/): opacity, tint, screen-tint, blend mode, mask threshold, mask list. -/
structure PartDrawState where
  blend_mode : BlendMode
  opacity : Rat
  tint : Vec3
  screen_tint : Vec3
  mask_threshold : Rat
  masks : List Mask
  deriving DecidableEq, Repr

/-- Modelled from the spec: PartDrawState::has_masks, i.e. whether the mask
list is non-empty (spec section 4.3 step 1 reads it as "the part has masks"). -/
def PartDrawState.has_masks (ds : PartDrawState) : Bool := !ds.masks.isEmpty

/-- Modelled from the spec: Part (nodes/node_data.rs is outside src/): a mesh,
three texture indices and a draw state. -/
structure Part where
  mesh : Mesh
  tex_albedo : Nat
  tex_bumpmap : Nat
  tex_emissive : Nat
  draw_state : PartDrawState
  deriving DecidableEq, Repr

/-- Modelled from the spec: the composite draw state (opacity, tint,
screen-tint, blend mode). -/
structure CompositeDrawState where
  blend_mode : BlendMode
  opacity : Rat
  tint : Vec3
  screen_tint : Vec3
  deriving DecidableEq, Repr

/-- Modelled from the spec: Composite (nodes/node_data.rs is outside src/). -/
structure Composite where
  draw_state : CompositeDrawState
  deriving DecidableEq, Repr

/-- Modelled from the spec: the closed set of node kinds dispatched on by the
renderer (Part, Composite, or some other kind with no draw descriptor). -/
inductive InoxData where
  | Part (p : Part)
  | Composite (c : Composite)
  | Other
  deriving DecidableEq, Repr

/-- Modelled from the spec: an InoxNode as read by the renderer: uuid, name,
transform and data payload. -/
structure InoxNode where
  uuid : Nat
  name : String
  transform : Transform
  data : InoxData
  deriving DecidableEq, Repr

/-- Modelled from the spec: InoxNodeTree (nodes/node_tree.rs) is outside src/.
Spec section 6 lists the consumed interface: getNode, rootZSortedOrder,
zSortedChildren, ancestorsOf. Per spec section 4.3 step 2 the ancestor chain's
translation sum includes the part's own translation, so `ancestors` is the
node-to-root chain including the node itself (indextree semantics); arena
lookup and node lookup coincide in this interface. -/
structure InoxNodeTree where
  getNode : Nat → Option InoxNode
  zsortedRoot : List Nat
  zsortedChild : Nat → List Nat
  ancestors : Nat → List Nat

/-- NodeDrawInfo from src/renderers/opengl/mod.rs. -/
inductive NodeDrawInfo where
  | Part (index_offset : Nat)
  | Composite (children : List Nat)
  deriving DecidableEq, Repr

/-- HashMap<InoxNodeUuid, NodeDrawInfo> modelled as an association list;
lookup takes the first matching key. -/
def lookupInfo (m : List (Nat × NodeDrawInfo)) (k : Nat) : Option NodeDrawInfo :=
  match m with
  | [] => none
  | (k2, v) :: rest => if k2 = k then some v else lookupInfo rest k

/-- HashMap::insert: replace any existing binding for the key. -/
def infoInsert (m : List (Nat × NodeDrawInfo)) (k : Nat) (v : NodeDrawInfo) :
    List (Nat × NodeDrawInfo) :=
  (k, v) :: m.filter (fun p => p.1 ≠ k)

/-- GlCache from src/renderers/opengl/mod.rs. -/
structure GlCache where
  camera : Option Camera := none
  viewport : Option (Nat × Nat) := none
  blend_mode : Option BlendMode := none
  program : Option Nat := none
  albedo : Option Nat := none
  deriving DecidableEq, Repr

/-- GlCache::update_camera: compare the stored camera sub-field by sub-field,
overwrite the sub-fields that differ, report whether anything differed;
a first call stores the camera and reports true. -/
def GlCache.update_camera (c : GlCache) (camera : Camera) : Bool × GlCache :=
  match c.camera with
  | some prev =>
    let s1 : Camera × Bool :=
      if prev.position = camera.position then (prev, false)
      else ({ prev with position := camera.position }, true)
    let s2 : Camera × Bool :=
      if s1.1.rotation = camera.rotation then s1
      else ({ s1.1 with rotation := camera.rotation }, true)
    let s3 : Camera × Bool :=
      if s2.1.scale = camera.scale then s2
      else ({ s2.1 with scale := camera.scale }, true)
    (s3.2, { c with camera := some s3.1 })
  | none => (true, { c with camera := some camera })

/-- GlCache::update_viewport: Option::replace and compare with the old value. -/
def GlCache.update_viewport (c : GlCache) (viewport : Nat × Nat) : Bool × GlCache :=
  match c.viewport with
  | some prev => (if prev = viewport then false else true, { c with viewport := some viewport })
  | none => (true, { c with viewport := some viewport })

/-- GlCache::update_blend_mode. -/
def GlCache.update_blend_mode (c : GlCache) (blend_mode : BlendMode) : Bool × GlCache :=
  match c.blend_mode with
  | some prev => (if prev = blend_mode then false else true, { c with blend_mode := some blend_mode })
  | none => (true, { c with blend_mode := some blend_mode })

/-- GlCache::update_program. -/
def GlCache.update_program (c : GlCache) (program : Nat) : Bool × GlCache :=
  match c.program with
  | some prev => (if prev = program then false else true, { c with program := some program })
  | none => (true, { c with program := some program })

/-- GlCache::update_albedo. -/
def GlCache.update_albedo (c : GlCache) (albedo : Nat) : Bool × GlCache :=
  match c.albedo with
  | some prev => (if prev = albedo then false else true, { c with albedo := some albedo })
  | none => (true, { c with albedo := some albedo })

/-- Which of the four shader structs a uniform setter was invoked on. -/
inductive ShaderKind where
  | part
  | partMask
  | composite
  | compositeMask
  deriving DecidableEq, Repr

def GL_FUNC_ADD : Nat := 0x8006
def GL_FUNC_SUBTRACT : Nat := 0x800A
def GL_ONE : Nat := 1
def GL_ONE_MINUS_SRC_ALPHA : Nat := 0x0303
def GL_ONE_MINUS_SRC_COLOR : Nat := 0x0301
def GL_DST_COLOR : Nat := 0x0306
def GL_DST_ALPHA : Nat := 0x0304
def GL_ONE_MINUS_DST_ALPHA : Nat := 0x0305
def GL_BLEND : Nat := 0x0BE2
def GL_STENCIL_TEST : Nat := 0x0B90
def GL_COLOR_BUFFER_BIT : Nat := 0x4000
def GL_STENCIL_BUFFER_BIT : Nat := 0x0400
def GL_KEEP : Nat := 0x1E00
def GL_REPLACE : Nat := 0x1E01
def GL_ALWAYS : Nat := 0x0207
def GL_EQUAL : Nat := 0x0202
def GL_TEXTURE_2D : Nat := 0x0DE1
def GL_FRAMEBUFFER : Nat := 0x8D40
def GL_DRAW_FRAMEBUFFER : Nat := 0x8CA9
def GL_COLOR_ATTACHMENT0 : Nat := 0x8CE0
def GL_COLOR_ATTACHMENT1 : Nat := 0x8CE1
def GL_COLOR_ATTACHMENT2 : Nat := 0x8CE2
def GL_DEPTH_STENCIL_ATTACHMENT : Nat := 0x821A
def GL_TRIANGLES : Nat := 0x0004
def GL_UNSIGNED_SHORT : Nat := 0x1403
def GL_UNSIGNED_BYTE : Nat := 0x1401
def GL_FLOAT : Nat := 0x1406
def GL_TEXTURE0 : Nat := 0x84C0
def GL_TEXTURE1 : Nat := 0x84C1
def GL_TEXTURE2 : Nat := 0x84C2
def GL_DEPTH24_STENCIL8 : Nat := 0x88F0
def GL_DEPTH_STENCIL : Nat := 0x84F9
def GL_UNSIGNED_INT_24_8 : Nat := 0x84FA

/-- One GPU-layer command. Uniform setters record which shader struct they were
called on and the value passed; setMvp records the camera and viewport the
matrix was computed from (camera.matrix is external math, carried symbolically). -/
inductive GlCall where
  | blendEquation (mode : Nat)
  | blendFunc (src dst : Nat)
  | enable (cap : Nat)
  | disable (cap : Nat)
  | clear (mask : Nat)
  | clearColor (r g b a : Rat)
  | clearStencil (v : Int)
  | colorMask (r g b a : Bool)
  | stencilOp (sfail dpfail dppass : Nat)
  | stencilFunc (func : Nat) (ref : Int) (mask : Nat)
  | stencilMask (m : Nat)
  | viewportCall (x y w h : Int)
  | uploadEmpty (tex w h ty : Nat)
  | texImage2D (target : Nat) (level : Int) (internalformat : Nat) (w h border : Int)
      (format ty : Nat)
  | bindTexture (target : Nat) (tex : Option Nat)
  | activeTexture (slot : Nat)
  | bindTextureOn (tex slot : Nat)
  | bindFramebuffer (target : Nat) (fb : Option Nat)
  | drawBuffers (bufs : List Nat)
  | framebufferTexture2D (target attachment textarget : Nat) (tex : Option Nat)
  | useProgram (prog : Nat)
  | setMvp (s : ShaderKind) (cam : Camera) (vw vh : Nat)
  | setOffset (s : ShaderKind) (off : Vec2)
  | setThreshold (s : ShaderKind) (t : Rat)
  | setOpacity (s : ShaderKind) (o : Rat)
  | setMultColor (s : ShaderKind) (c : Vec3)
  | setScreenColor (s : ShaderKind) (c : Vec3)
  | bindPartBufs
  | bindCompositeBufs
  | drawElements (mode count ty : Nat) (offset : Nat)
  | pushDebugGroup (name : String)
  | popDebugGroup
  | flush
  deriving DecidableEq, Repr

/-- OpenglRenderer::set_blend_mode, projected onto the state it reads and
writes (the GlCache) and the GL commands it issues. -/
def set_blend_mode (cache : GlCache) (blend_mode : BlendMode) : List GlCall × GlCache :=
  let r := cache.update_blend_mode blend_mode
  if !r.1 then ([], r.2)
  else
    (match blend_mode with
     | .Normal => [.blendEquation GL_FUNC_ADD, .blendFunc GL_ONE GL_ONE_MINUS_SRC_ALPHA]
     | .Multiply => [.blendEquation GL_FUNC_ADD, .blendFunc GL_DST_COLOR GL_ONE_MINUS_SRC_ALPHA]
     | .ColorDodge => [.blendEquation GL_FUNC_ADD, .blendFunc GL_DST_COLOR GL_ONE]
     | .LinearDodge => [.blendEquation GL_FUNC_ADD, .blendFunc GL_ONE GL_ONE]
     | .Screen => [.blendEquation GL_FUNC_ADD, .blendFunc GL_ONE GL_ONE_MINUS_SRC_COLOR]
     | .ClipToLower => [.blendEquation GL_FUNC_ADD, .blendFunc GL_DST_ALPHA GL_ONE_MINUS_SRC_ALPHA]
     | .SliceFromLower =>
       [.blendEquation GL_FUNC_SUBTRACT, .blendFunc GL_ONE_MINUS_DST_ALPHA GL_ONE_MINUS_SRC_ALPHA],
     r.2)

/-- The GL commands set_blend_mode issues when the cache does not elide them
(fresh cache, so update_blend_mode reports a change). -/
def blendCalls (bm : BlendMode) : List GlCall :=
  (set_blend_mode {} bm).1

/-- Result of running a piece of renderer code: the GL commands issued so far,
and either the final state or a Rust panic (which in the real program unwinds
the whole draw call). -/
inductive DR (σ : Type) where
  | ok (tr : List GlCall) (st : σ)
  | crash (tr : List GlCall) (msg : String)

/-- Whether the run panicked. -/
def DR.isCrash {σ : Type} : DR σ → Bool
  | .ok _ _ => false
  | .crash _ _ => true

/-- Sequencing: on success continue, concatenating traces; a panic propagates,
keeping the trace emitted before it. -/
def DR.andThen {σ : Type} : DR σ → (σ → DR σ) → DR σ
  | .ok tr st, k =>
    match k st with
    | .ok tr2 st2 => .ok (tr ++ tr2) st2
    | .crash tr2 m => .crash (tr ++ tr2) m
  | .crash tr m, _ => .crash tr m

/-- Prepend GL commands already issued before the given run. -/
def DR.withPre {σ : Type} (pre : List GlCall) : DR σ → DR σ
  | .ok tr st => .ok (pre ++ tr) st
  | .crash tr m => .crash (pre ++ tr) m

/-- Map the final state (panics unchanged). -/
def DR.mapState {σ τ : Type} : DR σ → (σ → τ) → DR τ
  | .ok tr st, f => .ok tr (f st)
  | .crash tr m, _ => .crash tr m

/-- The OpenglRenderer state the drawing code can read or write. GPU handles
(framebuffer, offscreen textures, shader programs, uploaded textures) are
opaque Nat handles. -/
structure Renderer where
  camera : Camera
  viewport : Nat × Nat
  cache : GlCache
  is_compositing : Bool
  composite_framebuffer : Nat
  cf_albedo : Nat
  cf_emissive : Nat
  cf_bump : Nat
  cf_stencil : Nat
  part_shader : Nat
  part_mask_shader : Nat
  composite_shader : Nat
  composite_mask_shader : Nat
  textures : List Nat
  nodes : InoxNodeTree
  nodes_zsorted : List Nat
  nodes_draw_info : List (Nat × NodeDrawInfo)

/-- OpenglRenderer::attach_framebuffer_textures. -/
def attach_framebuffer_textures (st : Renderer) : List GlCall :=
  [.bindFramebuffer GL_FRAMEBUFFER (some st.composite_framebuffer),
   .framebufferTexture2D GL_FRAMEBUFFER GL_COLOR_ATTACHMENT0 GL_TEXTURE_2D (some st.cf_albedo),
   .framebufferTexture2D GL_FRAMEBUFFER GL_COLOR_ATTACHMENT1 GL_TEXTURE_2D (some st.cf_emissive),
   .framebufferTexture2D GL_FRAMEBUFFER GL_COLOR_ATTACHMENT2 GL_TEXTURE_2D (some st.cf_bump),
   .framebufferTexture2D GL_FRAMEBUFFER GL_DEPTH_STENCIL_ATTACHMENT GL_TEXTURE_2D
     (some st.cf_stencil),
   .bindFramebuffer GL_FRAMEBUFFER none]

/-- The four bind-program / set_mvp pairs issued by OpenglRenderer::update_camera
when the cache gate passes; the MVP matrix is camera.matrix(viewport), carried
symbolically as the (camera, viewport) pair it is computed from. -/
def mvpCalls (st : Renderer) : List GlCall :=
  [.useProgram st.part_mask_shader,
   .setMvp ShaderKind.partMask st.camera st.viewport.1 st.viewport.2,
   .useProgram st.part_shader,
   .setMvp ShaderKind.part st.camera st.viewport.1 st.viewport.2,
   .useProgram st.composite_shader,
   .setMvp ShaderKind.composite st.camera st.viewport.1 st.viewport.2,
   .useProgram st.composite_mask_shader,
   .setMvp ShaderKind.compositeMask st.camera st.viewport.1 st.viewport.2]

/-- OpenglRenderer::update_camera: gate on the cache (note the Rust short-circuit:
update_viewport is only called when update_camera reported no change), then
set the MVP uniform on all four shader programs. Returns the bool the Rust
function returns, the GL commands issued, and the new state. -/
def Renderer.update_camera (st : Renderer) : Bool × List GlCall × Renderer :=
  let r1 := st.cache.update_camera st.camera
  if !r1.1 then
    let r2 := r1.2.update_viewport st.viewport
    if !r2.1 then (false, [], { st with cache := r2.2 })
    else (true, mvpCalls st, { st with cache := r2.2 })
  else (true, mvpCalls st, { st with cache := r1.2 })

/-- OpenglRenderer::resize: store the new viewport, reallocate the three color
targets and the combined depth/stencil target, reattach them to the composite
framebuffer, then call update_camera. upload_empty is texture.rs code outside
src/, modelled from the spec as a storage reallocation command keeping the
target's pixel format. -/
def Renderer.resize (st : Renderer) (w h : Nat) : List GlCall × Renderer :=
  let st1 : Renderer := { st with viewport := (w, h) }
  let calls1 : List GlCall :=
    [.viewportCall 0 0 (w : Int) (h : Int),
     .uploadEmpty st1.cf_albedo w h GL_UNSIGNED_BYTE,
     .uploadEmpty st1.cf_emissive w h GL_FLOAT,
     .uploadEmpty st1.cf_bump w h GL_UNSIGNED_BYTE,
     .bindTexture GL_TEXTURE_2D (some st1.cf_stencil),
     .texImage2D GL_TEXTURE_2D 0 GL_DEPTH24_STENCIL8 (w : Int) (h : Int) 0
       GL_DEPTH_STENCIL GL_UNSIGNED_INT_24_8]
  let r := st1.update_camera
  (calls1 ++ attach_framebuffer_textures st1 ++ r.2.1, r.2.2)

/-- OpenglRenderer::begin_composite: a no-op while already compositing. -/
def begin_composite (st : Renderer) : List GlCall × Renderer :=
  if st.is_compositing then ([], st)
  else
    ([.bindFramebuffer GL_DRAW_FRAMEBUFFER (some st.composite_framebuffer),
      .drawBuffers [GL_COLOR_ATTACHMENT0, GL_COLOR_ATTACHMENT1, GL_COLOR_ATTACHMENT2],
      .clearColor 0 0 0 0,
      .clear GL_COLOR_BUFFER_BIT,
      .activeTexture GL_TEXTURE0,
      .blendFunc GL_ONE GL_ONE_MINUS_SRC_ALPHA],
     { st with is_compositing := true })

/-- OpenglRenderer::end_composite: a no-op while not compositing. -/
def end_composite (st : Renderer) : List GlCall × Renderer :=
  if !st.is_compositing then ([], st)
  else
    ([.bindFramebuffer GL_FRAMEBUFFER none,
      .drawBuffers [GL_COLOR_ATTACHMENT0, GL_COLOR_ATTACHMENT1, GL_COLOR_ATTACHMENT2],
      .flush],
     { st with is_compositing := false })

/-- OpenglRenderer::bind_part_textures, projected onto the cache and texture
table. Rust Vec indexing panics when a texture index is out of bounds;
Texture::bind_on (texture.rs, outside src/) is modelled as one symbolic
bind command recording the texture handle and the texture unit. -/
def bind_part_textures (cache : GlCache) (textures : List Nat) (part : Part) : DR GlCache :=
  let r := cache.update_albedo part.tex_albedo
  if !r.1 then .ok [] r.2
  else
    match textures[part.tex_albedo]? with
    | none => .crash [] "index out of bounds"
    | some ta =>
      match textures[part.tex_bumpmap]? with
      | none => .crash [.bindTextureOn ta 0] "index out of bounds"
      | some tb =>
        match textures[part.tex_emissive]? with
        | none => .crash [.bindTextureOn ta 0, .bindTextureOn tb 1] "index out of bounds"
        | some te => .ok [.bindTextureOn ta 0, .bindTextureOn tb 1, .bindTextureOn te 2] r.2

/-- The offset computed in OpenglRenderer::draw_part: walk nodes.ancestors,
look each id up in the arena, sum the transforms' translations, truncate to 2D. -/
def partOffset (tree : InoxNodeTree) (uuid : Nat) : Vec2 :=
  (vec3Sum (((tree.ancestors uuid).filterMap tree.getNode).map
    (fun node => node.transform.translation))).truncate

/-- One pending activation of the mutually recursive drawing functions of
OpenglRenderer (draw_node, draw_part, draw_part_mask, draw_composite, and the
two source-level for loops over a part's masks and a composite's children).
Modelling them as one fuel-indexed dispatcher keeps the recursion structural;
running out of fuel corresponds to unbounded recursion (stack overflow) in the
Rust original. -/
inductive DrawTask where
  | node (uuid : Nat) (ndi : NodeDrawInfo) (is_composite_child is_mask : Bool)
  | part (node : InoxNode) (p : Part) (index_offset : Nat) (is_composite_child is_mask : Bool)
  | partMask (m : Mask) (is_composite_child : Bool)
  | maskList (ms : List Mask) (is_composite_child : Bool)
  | composite (node : InoxNode) (c : Composite) (children : List Nat)
  | childList (cs : List Nat) (parent_uuid : Nat)
  | rootList (cs : List Nat)

def liftPair (p : List GlCall × Renderer) : DR Renderer := .ok p.1 p.2

/-- The drawing code of OpenglRenderer (draw_node / draw_part / draw_part_mask /
draw_composite and the draw_model loop body), translated case by case from
src/renderers/opengl/mod.rs. Failed lookups panic exactly where the Rust code
calls unwrap (draw_node) or indexes a HashMap (draw_part_mask). -/
def draw_go : Nat → DrawTask → Renderer → DR Renderer
  | 0, _, _ => .crash [] "stack overflow"
  | fuel+1, .node uuid ndi icc im, st =>
    match ndi with
    | .Part index_offset =>
      match st.nodes.getNode uuid with
      | none => .crash [] "called unwrap on a None value"
      | some node =>
        match node.data with
        | .Part p => draw_go fuel (.part node p index_offset icc im) st
        | _ => .ok [] st
    | .Composite children =>
      match st.nodes.getNode uuid with
      | none => .crash [] "called unwrap on a None value"
      | some node =>
        match node.data with
        | .Composite c => draw_go fuel (.composite node c children) st
        | _ => .ok [] st
  | fuel+1, .partMask m icc, st =>
    DR.withPre
      [.colorMask false false false false,
       .stencilOp GL_KEEP GL_KEEP GL_REPLACE,
       .stencilFunc GL_ALWAYS (if m.mode = MaskMode.Mask then 1 else 0) 0xff,
       .stencilMask 0xff]
      (match lookupInfo st.nodes_draw_info m.source with
       | none => .crash [] "no entry found for key"
       | some ndi =>
         (draw_go fuel (.node m.source ndi icc true) st).andThen
           (fun st2 => .ok [.colorMask true true true true] st2))
  | _+1, .maskList [] _, st => .ok [] st
  | fuel+1, .maskList (m :: rest) icc, st =>
    (draw_go fuel (.partMask m icc) st).andThen
      (fun st2 => draw_go fuel (.maskList rest icc) st2)
  | fuel+1, .part node p index_offset icc im, st =>
    let ds := p.draw_state
    let maskPhase : DR Renderer :=
      if ds.masks.isEmpty then .ok [] st
      else
        DR.withPre
          [.pushDebugGroup "Masks",
           .enable GL_STENCIL_TEST,
           .clearStencil (if ds.has_masks then 0 else 1),
           .clear GL_STENCIL_BUFFER_BIT]
          ((draw_go fuel (.maskList ds.masks icc) st).andThen
            (fun st2 =>
              .ok [.popDebugGroup, .stencilFunc GL_EQUAL 1 0xff, .stencilMask 0x00] st2))
    (DR.withPre [.pushDebugGroup node.name] maskPhase).andThen (fun st2 =>
      ((bind_part_textures st2.cache st2.textures p).mapState
        (fun c => { st2 with cache := c })).andThen (fun st3 =>
        let bm := set_blend_mode st3.cache ds.blend_mode
        let st4 : Renderer := { st3 with cache := bm.2 }
        let offset := partOffset st4.nodes node.uuid
        let uniforms : List GlCall :=
          if im then
            [.useProgram st4.part_mask_shader,
             .setOffset ShaderKind.partMask offset,
             .setThreshold ShaderKind.partMask (ratClamp ds.mask_threshold 0 1)]
          else
            [.useProgram st4.part_shader,
             .setOffset ShaderKind.part offset,
             .setOpacity ShaderKind.part ds.opacity,
             .setMultColor ShaderKind.part ds.tint,
             .setScreenColor ShaderKind.part ds.screen_tint]
        let bufBind : GlCall := if icc then .bindCompositeBufs else .bindPartBufs
        let tail : List GlCall :=
          if ds.masks.isEmpty then [.popDebugGroup]
          else
            [.stencilMask 0xff, .stencilFunc GL_ALWAYS 1 0xff,
             .disable GL_STENCIL_TEST, .popDebugGroup]
        .ok (bm.1 ++ uniforms ++
             [bufBind,
              .drawElements GL_TRIANGLES p.mesh.indices.length GL_UNSIGNED_SHORT
                (index_offset * 2)] ++ tail) st4))
  | fuel+1, .composite node comp children, st =>
    if children.isEmpty then .ok [] st
    else
      (DR.withPre [.pushDebugGroup node.name] (liftPair (begin_composite st))).andThen
        (fun st2 =>
          (draw_go fuel (.childList children node.uuid) st2).andThen (fun st3 =>
            (liftPair (end_composite st3)).andThen (fun st4 =>
              let bm := set_blend_mode st4.cache comp.draw_state.blend_mode
              let st5 : Renderer := { st4 with cache := bm.2 }
              let opacity := ratClamp comp.draw_state.opacity 0 1
              let tint := vec3Clamp01 comp.draw_state.tint
              let screen_tint := vec3Clamp01 comp.draw_state.screen_tint
              .ok ([.activeTexture GL_TEXTURE0,
                    .bindTexture GL_TEXTURE_2D (some st4.cf_albedo),
                    .activeTexture GL_TEXTURE1,
                    .bindTexture GL_TEXTURE_2D (some st4.cf_emissive),
                    .activeTexture GL_TEXTURE2,
                    .bindTexture GL_TEXTURE_2D (some st4.cf_bump)] ++
                   bm.1 ++
                   [.useProgram st5.composite_shader,
                    .setOpacity ShaderKind.composite opacity,
                    .setMultColor ShaderKind.composite tint,
                    .setScreenColor ShaderKind.composite screen_tint,
                    .bindCompositeBufs,
                    .drawElements GL_TRIANGLES 6 GL_UNSIGNED_SHORT 0,
                    .popDebugGroup]) st5)))
  | _+1, .childList [] _, st => .ok [] st
  | fuel+1, .childList (c :: rest) parent, st =>
    if c = parent then draw_go fuel (.childList rest parent) st
    else
      match lookupInfo st.nodes_draw_info c with
      | none => draw_go fuel (.childList rest parent) st
      | some ndi =>
        (draw_go fuel (.node c ndi true false) st).andThen
          (fun st2 => draw_go fuel (.childList rest parent) st2)
  | _+1, .rootList [] , st => .ok [] st
  | fuel+1, .rootList (c :: rest), st =>
    match lookupInfo st.nodes_draw_info c with
    | none => draw_go fuel (.rootList rest) st
    | some ndi =>
      (draw_go fuel (.node c ndi false false) st).andThen
        (fun st2 => draw_go fuel (.rootList rest) st2)

/-- OpenglRenderer::draw_node. -/
def draw_node (fuel : Nat) (st : Renderer) (uuid : Nat) (ndi : NodeDrawInfo)
    (is_composite_child is_mask : Bool) : DR Renderer :=
  draw_go fuel (.node uuid ndi is_composite_child is_mask) st

/-- OpenglRenderer::draw_part. -/
def draw_part (fuel : Nat) (st : Renderer) (node : InoxNode) (p : Part)
    (index_offset : Nat) (is_composite_child is_mask : Bool) : DR Renderer :=
  draw_go fuel (.part node p index_offset is_composite_child is_mask) st

/-- OpenglRenderer::draw_part_mask. -/
def draw_part_mask (fuel : Nat) (st : Renderer) (m : Mask) (is_composite_child : Bool) :
    DR Renderer :=
  draw_go fuel (.partMask m is_composite_child) st

/-- OpenglRenderer::draw_composite. -/
def draw_composite (fuel : Nat) (st : Renderer) (node : InoxNode) (c : Composite)
    (children : List Nat) : DR Renderer :=
  draw_go fuel (.composite node c children) st

/-- OpenglRenderer::draw_model: update the camera, enable blending, then draw
every node of the z-sorted list that has a draw descriptor. -/
def draw_model (fuel : Nat) (st : Renderer) : DR Renderer :=
  let r := st.update_camera
  DR.withPre (r.2.1 ++ [.enable GL_BLEND])
    (draw_go fuel (.rootList r.2.2.nodes_zsorted) r.2.2)

/-- Modelled from the spec: InoxGlBuffersBuilder (gl_buffer.rs) is outside src/.
Spec sections 2 and 8: meshes are packed into a buffer region in traversal
order and push records the part's offset into the region, the index count
accumulated before the push. -/
structure BufBuilder where
  idxCount : Nat := 0
  deriving DecidableEq, Repr

/-- InoxGlBuffersBuilder::push, modelled from the spec (see BufBuilder). -/
def BufBuilder.push (b : BufBuilder) (m : Mesh) : Nat × BufBuilder :=
  (b.idxCount, { b with idxCount := b.idxCount + m.indices.length })

/-- The inner loop of OpenglRenderer::new over a composite's filtered children:
each child Part's mesh goes into the composite buffer region and the child gets
a Part draw descriptor. A child id the hierarchy does not know panics (unwrap),
modelled as none. -/
def build_children (tree : InoxNodeTree) :
    List Nat → List (Nat × NodeDrawInfo) → BufBuilder →
    Option (List (Nat × NodeDrawInfo) × BufBuilder)
  | [], m, cb => some (m, cb)
  | u :: us, m, cb =>
    match tree.getNode u with
    | none => none
    | some node =>
      match node.data with
      | .Part p =>
        let r := cb.push p.mesh
        build_children tree us (infoInsert m u (.Part r.1)) r.2
      | _ => build_children tree us m cb

/-- The draw-order planning loop of OpenglRenderer::new over the z-sorted node
list: Part nodes get a Part descriptor with their root-region offset; Composite
nodes get their z-sorted children filtered by "not the composite's own uuid",
the child Parts are packed into the composite region, and the filtered list is
the Composite descriptor; other node kinds get no descriptor. -/
def build_go (tree : InoxNodeTree) :
    List Nat → List (Nat × NodeDrawInfo) → BufBuilder → BufBuilder →
    Option (List (Nat × NodeDrawInfo) × BufBuilder × BufBuilder)
  | [], m, pb, cb => some (m, pb, cb)
  | uuid :: rest, m, pb, cb =>
    match tree.getNode uuid with
    | none => none
    | some node =>
      match node.data with
      | .Part p =>
        let r := pb.push p.mesh
        build_go tree rest (infoInsert m uuid (.Part r.1)) r.2 cb
      | .Composite _ =>
        let children := (tree.zsortedChild node.uuid).filter (fun u => u ≠ node.uuid)
        match build_children tree children m cb with
        | none => none
        | some (m2, cb2) =>
          build_go tree rest (infoInsert m2 uuid (.Composite children)) pb cb2
      | .Other => build_go tree rest m pb cb

/-- The nodes_draw_info map and the two buffer builders produced at load time
by OpenglRenderer::new. -/
def build_draw_info (tree : InoxNodeTree) :
    Option (List (Nat × NodeDrawInfo) × BufBuilder × BufBuilder) :=
  build_go tree tree.zsortedRoot [] {} {}

/-- A texture to upload: raw bytes plus a format hint (ModelTexture). -/
structure ModelTexture where
  data : List Nat
  format : Nat
  deriving DecidableEq, Repr

/-- A decoded image: pixel bytes and dimensions. -/
structure DecodedImage where
  pixels : List Nat
  width : Nat
  height : Nat
  deriving DecidableEq, Repr

/-- The parallel decode phase of OpenglRenderer::upload_model_textures:
each texture is decoded independently (the TGA reader and the image crate are
the external decode collaborators of spec section 6, passed in as one decode
function); a failed decode is logged and dropped, and the collected order is
the input order. Returns (decoded images, logged decode errors). -/
def decode_phase (decode : ModelTexture → Except String DecodedImage) :
    List ModelTexture → List DecodedImage × List String
  | [] => ([], [])
  | mtex :: rest =>
    let r := decode_phase decode rest
    match decode mtex with
    | .ok img => (img :: r.1, r.2)
    | .error e => (r.1, e :: r.2)

/-- The sequential upload loop of OpenglRenderer::upload_model_textures:
Texture::from_raw_pixels (the external GPU upload, passed in as a function)
is called per image and its result is pushed; the question-mark operator on a
failure returns the error at once, keeping the textures pushed so far and
uploading none of the remaining images. -/
def upload_phase (fromRawPixels : DecodedImage → Except String Nat) :
    List DecodedImage → List Nat → List Nat × Option String
  | [], texs => (texs, none)
  | img :: rest, texs =>
    match fromRawPixels img with
    | .ok t => upload_phase fromRawPixels rest (texs ++ [t])
    | .error e => (texs, some e)

/-- OpenglRenderer::upload_model_textures: decode phase then upload phase.
Returns the new texture table, the logged decode errors, and the error the
call returns (none on Ok). -/
def upload_model_textures (decode : ModelTexture → Except String DecodedImage)
    (fromRawPixels : DecodedImage → Except String Nat)
    (textures : List Nat) (mtexs : List ModelTexture) :
    List Nat × List String × Option String :=
  let d := decode_phase decode mtexs
  let u := upload_phase fromRawPixels d.1 textures
  (u.1, d.2, u.2)

/-- The images a decode function accepts, in order (used to state what the
decode phase keeps). -/
def decodedOk (decode : ModelTexture → Except String DecodedImage)
    (mtexs : List ModelTexture) : List DecodedImage :=
  mtexs.filterMap (fun mt => match decode mt with | .ok img => some img | .error _ => none)

/-- The decode errors a decode function logs, in order. -/
def decodeLogs (decode : ModelTexture → Except String DecodedImage)
    (mtexs : List ModelTexture) : List String :=
  mtexs.filterMap (fun mt => match decode mt with | .ok _ => none | .error e => some e)

/-- The per-mask GL block of draw_part_mask around the draw of the mask's
source node: color writes off, stencil write-on-pass setup writing 1 for
Mask and 0 for Dodge, then the source draw, then color writes back on. -/
def maskBlock (m : Mask) (sourceDraw : List GlCall) : List GlCall :=
  [.colorMask false false false false,
   .stencilOp GL_KEEP GL_KEEP GL_REPLACE,
   .stencilFunc GL_ALWAYS (if m.mode = MaskMode.Mask then 1 else 0) 0xff,
   .stencilMask 0xff] ++ sourceDraw ++ [.colorMask true true true true]

/-- Whether a GL command is an MVP (projection) uniform refresh. -/
def isMvpCall : GlCall → Bool
  | .setMvp _ _ _ _ => true
  | _ => false

/-- A camera at the origin (Camera::default). -/
def camera0 : Camera := ⟨⟨0, 0⟩, 0, ⟨1, 1⟩⟩

/-- An empty node hierarchy that knows no node at all. -/
def emptyTree : InoxNodeTree :=
  ⟨fun _ => none, [], fun _ => [], fun _ => []⟩

/-- A baseline renderer state for concrete runs. -/
def baseRenderer : Renderer :=
  { camera := camera0
    viewport := (7, 9)
    cache := {}
    is_compositing := false
    composite_framebuffer := 90
    cf_albedo := 91
    cf_emissive := 92
    cf_bump := 93
    cf_stencil := 94
    part_shader := 11
    part_mask_shader := 12
    composite_shader := 13
    composite_mask_shader := 14
    textures := [70, 71, 72]
    nodes := emptyTree
    nodes_zsorted := []
    nodes_draw_info := [] }

/-- A renderer whose draw-info map names node 1 although the hierarchy knows
no node at all: the malformed-model situation of spec section 7. -/
def stX : Renderer :=
  { baseRenderer with nodes_zsorted := [1], nodes_draw_info := [(1, .Part 0)] }

/-- An identity-ish transform for fixtures. -/
def transform0 : Transform := ⟨Vec3.zero, Vec3.zero, ⟨1, 1⟩⟩

/-- A small part for fixtures. -/
def part4 : Part := ⟨⟨[], [], [0, 1, 2]⟩, 0, 1, 2, ⟨.Normal, 1, ⟨1, 1, 1⟩, ⟨0, 0, 0⟩, 1, []⟩⟩

/-- A composite node (uuid 1) for fixtures. -/
def node4c : InoxNode := ⟨1, "c", transform0, .Composite ⟨⟨.Normal, 1, ⟨1, 1, 1⟩, ⟨0, 0, 0⟩⟩⟩⟩

/-- A part node (uuid 2) for fixtures. -/
def node4p : InoxNode := ⟨2, "p", transform0, .Part part4⟩

/-- A hierarchy whose composite node 1 lists itself among its own z-sorted
children, the self-reference situation of C4. -/
def tree4 : InoxNodeTree :=
  ⟨fun u => if u = 1 then some node4c else if u = 2 then some node4p else none,
   [1, 2],
   fun u => if u = 1 then [1, 2] else [],
   fun u => [u]⟩

/-- The mask loop of draw_part drew exactly these source-node traces: for
each mask in order, its source has a draw-info entry and the segment is a
successful draw of that source node (at some recursion depth), threading the
renderer state. -/
def MaskSegsOk (icc : Bool) : Renderer → List Mask → List (List GlCall) → Renderer → Prop
  | st, [], segs, st3 => segs = [] ∧ st3 = st
  | st, m :: rest, segs, st3 =>
    ∃ seg segs2 ndi stm fn,
      segs = seg :: segs2 ∧
      lookupInfo st.nodes_draw_info m.source = some ndi ∧
      draw_go fn (.node m.source ndi icc true) st = .ok seg stm ∧
      MaskSegsOk icc stm rest segs2 st3

/-- A maskless part fixture (texture indices 0, 1, 2; threshold 3, out of
range on purpose). -/
def p3 : Part := ⟨⟨[], [], [0, 1, 2]⟩, 0, 1, 2, ⟨.Normal, 1, ⟨1, 1, 1⟩, ⟨0, 0, 0⟩, 3, []⟩⟩

/-- Part node fixture with uuid 3, used as a mask source. -/
def node3 : InoxNode := ⟨3, "maskSource", transform0, .Part p3⟩

/-- A part fixture carrying one Mask-mode mask whose source is node 3, with
out-of-range opacity and tint. -/
def p4 : Part :=
  ⟨⟨[], [], [0, 1, 2]⟩, 0, 1, 2, ⟨.Multiply, 2, ⟨2, 2, 2⟩, ⟨0, 0, 0⟩, 3, [⟨3, MaskMode.Mask⟩]⟩⟩

/-- Part node fixture with uuid 4 whose part has a mask. -/
def node4m : InoxNode := ⟨4, "masked", transform0, .Part p4⟩

/-- A hierarchy with the mask source node 3 and the masked part node 4. -/
def treeP : InoxNodeTree :=
  ⟨fun u => if u = 3 then some node3 else if u = 4 then some node4m else none,
   [4], fun _ => [], fun u => [u]⟩

/-- Renderer fixture over treeP with draw descriptors for nodes 3 and 4. -/
def stP : Renderer :=
  { baseRenderer with nodes := treeP, nodes_draw_info := [(3, .Part 0), (4, .Part 3)] }

/-- A composite fixture with out-of-range opacity, tint and screen-tint. -/
def comp1 : Composite := ⟨⟨.Normal, 2, ⟨5, 5, 5⟩, ⟨-1, -1, -1⟩⟩⟩

/-- Composite node fixture with uuid 1. -/
def node1c : InoxNode := ⟨1, "comp", transform0, .Composite comp1⟩

/-- A hierarchy with composite node 1 whose z-sorted children are [3]. -/
def treeC : InoxNodeTree :=
  ⟨fun u => if u = 1 then some node1c else if u = 3 then some node3 else none,
   [1], fun u => if u = 1 then [3] else [], fun u => [u]⟩

/-- Renderer fixture over treeC. -/
def stComp : Renderer :=
  { baseRenderer with nodes := treeC, nodes_draw_info := [(1, .Composite [3]), (3, .Part 0)] }

/-- Ancestor fixture: root node with translation (10, 20, 30). -/
def node6root : InoxNode := ⟨1, "root", ⟨⟨10, 20, 30⟩, Vec3.zero, ⟨1, 1⟩⟩, .Other⟩

/-- Ancestor fixture: part node with translation (1, 2, 3), child of node 1. -/
def node6p : InoxNode := ⟨2, "p", ⟨⟨1, 2, 3⟩, Vec3.zero, ⟨1, 1⟩⟩, .Part part4⟩

/-- A hierarchy where node 2's ancestor chain is [2, 1]. -/
def tree6 : InoxNodeTree :=
  ⟨fun u => if u = 1 then some node6root else if u = 2 then some node6p else none,
   [2], fun _ => [], fun u => if u = 2 then [2, 1] else [u]⟩

/-- node6root with different rotation and scale but the same translation. -/
def node6rootSpun : InoxNode := ⟨1, "root", ⟨⟨10, 20, 30⟩, ⟨5, 5, 5⟩, ⟨9, 9⟩⟩, .Other⟩

/-- node6p with different rotation and scale but the same translation. -/
def node6pSpun : InoxNode := ⟨2, "p", ⟨⟨1, 2, 3⟩, ⟨7, 7, 7⟩, ⟨4, 4⟩⟩, .Part part4⟩

/-- tree6 with rotations and scales changed but translations kept. -/
def tree6b : InoxNodeTree :=
  ⟨fun u => if u = 1 then some node6rootSpun else if u = 2 then some node6pSpun else none,
   [2], fun _ => [], fun u => if u = 2 then [2, 1] else [u]⟩

/-- Renderer fixture over tree6. -/
def stP6 : Renderer :=
  { baseRenderer with nodes := tree6, nodes_draw_info := [(2, .Part 0)] }

/-- A renderer whose cache already holds the current camera and the viewport
(7, 9): the resize-to-same-size situation. -/
def stC8 : Renderer :=
  { baseRenderer with cache := { camera := some camera0, viewport := some (7, 9) } }

/-- A decode collaborator fixture: format 0 decodes, any other format fails. -/
def decode9 : ModelTexture → Except String DecodedImage :=
  fun mt => if mt.format = 0 then .ok ⟨mt.data, 1, 1⟩ else .error "decode failed"

/-- A GPU-upload collaborator fixture: pixel data [9] fails to upload. -/
def fromRaw9 : DecodedImage → Except String Nat :=
  fun img => if img.pixels = [9] then .error "gl upload failed" else .ok 77

/-- A texture that decodes and uploads. -/
def mtexGood1 : ModelTexture := ⟨[1], 0⟩

/-- A texture whose decode fails (unknown format). -/
def mtexBadDecode : ModelTexture := ⟨[3], 1⟩

/-- A texture that decodes but whose GPU upload fails. -/
def mtexBadUpload : ModelTexture := ⟨[9], 0⟩

/-- A second texture that decodes and uploads. -/
def mtexGood2 : ModelTexture := ⟨[2], 0⟩

theorem update_camera_fst (c : GlCache) (cam : Camera) :
    (c.update_camera cam).1 = true ↔
      ∀ p, c.camera = some p →
        ¬(p.position = cam.position ∧ p.rotation = cam.rotation ∧ p.scale = cam.scale) := by
  unfold GlCache.update_camera
  cases h : c.camera with
  | none => simp [h]
  | some prev =>
    by_cases h1 : prev.position = cam.position <;>
      by_cases h2 : prev.rotation = cam.rotation <;>
      by_cases h3 : prev.scale = cam.scale <;>
      simp_all

theorem update_camera_snd (c : GlCache) (cam : Camera) :
    (c.update_camera cam).2.camera = some cam := by
  unfold GlCache.update_camera
  cases h : c.camera with
  | none => simp
  | some prev =>
    obtain ⟨pp, pr, ps⟩ := prev
    obtain ⟨cp, cr, cs⟩ := cam
    by_cases h1 : pp = cp <;> by_cases h2 : pr = cr <;> by_cases h3 : ps = cs <;>
      simp_all

theorem update_viewport_fst (c : GlCache) (v : Nat × Nat) :
    (c.update_viewport v).1 = true ↔ c.viewport ≠ some v := by
  unfold GlCache.update_viewport
  cases h : c.viewport with
  | none => simp
  | some prev => by_cases hp : prev = v <;> simp [hp]

theorem update_viewport_snd (c : GlCache) (v : Nat × Nat) :
    (c.update_viewport v).2.viewport = some v := by
  unfold GlCache.update_viewport
  cases h : c.viewport <;> simp

theorem update_blend_mode_fst (c : GlCache) (bm : BlendMode) :
    (c.update_blend_mode bm).1 = true ↔ c.blend_mode ≠ some bm := by
  unfold GlCache.update_blend_mode
  cases h : c.blend_mode with
  | none => simp
  | some prev => by_cases hp : prev = bm <;> simp [hp]

theorem update_blend_mode_snd (c : GlCache) (bm : BlendMode) :
    (c.update_blend_mode bm).2.blend_mode = some bm := by
  unfold GlCache.update_blend_mode
  cases h : c.blend_mode <;> simp

theorem update_program_fst (c : GlCache) (p : Nat) :
    (c.update_program p).1 = true ↔ c.program ≠ some p := by
  unfold GlCache.update_program
  cases h : c.program with
  | none => simp
  | some prev => by_cases hp : prev = p <;> simp [hp]

theorem update_program_snd (c : GlCache) (p : Nat) :
    (c.update_program p).2.program = some p := by
  unfold GlCache.update_program
  cases h : c.program <;> simp

theorem update_albedo_fst (c : GlCache) (a : Nat) :
    (c.update_albedo a).1 = true ↔ c.albedo ≠ some a := by
  unfold GlCache.update_albedo
  cases h : c.albedo with
  | none => simp
  | some prev => by_cases hp : prev = a <;> simp [hp]

theorem update_albedo_snd (c : GlCache) (a : Nat) :
    (c.update_albedo a).2.albedo = some a := by
  unfold GlCache.update_albedo
  cases h : c.albedo <;> simp

theorem set_blend_mode_unchanged (c : GlCache) (bm : BlendMode)
    (h : (c.update_blend_mode bm).1 = false) : (set_blend_mode c bm).1 = [] := by
  unfold set_blend_mode
  simp [h]

/-- Claim C1: each draw-state-cache update call returns true exactly when it is
the first call for that field or its argument differs from the previously
stored value (camera compared sub-field by sub-field on position, rotation and
scale; the other fields by value equality); after every call the stored value
equals the argument; and a request the cache reports unchanged is a true no-op
at the GPU layer: set_blend_mode issues no GL blend calls when
update_blend_mode returns false. -/
theorem claim_C1_cache_gating (c : GlCache) (cam : Camera) (v : Nat × Nat)
    (bm : BlendMode) (pr al : Nat) :
    ((c.update_camera cam).1 = true ↔
      ∀ p, c.camera = some p →
        ¬(p.position = cam.position ∧ p.rotation = cam.rotation ∧ p.scale = cam.scale))
    ∧ (c.update_camera cam).2.camera = some cam
    ∧ ((c.update_viewport v).1 = true ↔ c.viewport ≠ some v)
    ∧ (c.update_viewport v).2.viewport = some v
    ∧ ((c.update_blend_mode bm).1 = true ↔ c.blend_mode ≠ some bm)
    ∧ (c.update_blend_mode bm).2.blend_mode = some bm
    ∧ ((c.update_program pr).1 = true ↔ c.program ≠ some pr)
    ∧ (c.update_program pr).2.program = some pr
    ∧ ((c.update_albedo al).1 = true ↔ c.albedo ≠ some al)
    ∧ (c.update_albedo al).2.albedo = some al
    ∧ ((c.update_blend_mode bm).1 = false → (set_blend_mode c bm).1 = []) :=
  ⟨update_camera_fst c cam, update_camera_snd c cam,
   update_viewport_fst c v, update_viewport_snd c v,
   update_blend_mode_fst c bm, update_blend_mode_snd c bm,
   update_program_fst c pr, update_program_snd c pr,
   update_albedo_fst c al, update_albedo_snd c al,
   set_blend_mode_unchanged c bm⟩

theorem claim_C1_cache_gating_witness :
    (GlCache.update_viewport {} (3, 4)).1 = true
    ∧ (GlCache.update_viewport {} (3, 4)).2.viewport = some (3, 4)
    ∧ (set_blend_mode { blend_mode := some BlendMode.Normal } BlendMode.Normal).1 = [] := by
  obtain ⟨h1, h2, h3, h4, h5, h6, h7, h8, h9, h10, h11⟩ :=
    claim_C1_cache_gating { blend_mode := some BlendMode.Normal } camera0 (3, 4)
      BlendMode.Normal 5 6
  exact ⟨h3.mpr (by decide), h4, h11 (by decide)⟩

/-- Claim C3: begin_composite while already compositing, and end_composite
while not compositing, are idempotent no-ops: the is_compositing flag is
unchanged, the whole state is unchanged, and no GPU command is issued. -/
theorem claim_C3_composite_idempotent (st : Renderer) :
    (st.is_compositing = true → begin_composite st = ([], st))
    ∧ (st.is_compositing = false → end_composite st = ([], st)) := by
  constructor <;> intro h <;> simp [begin_composite, end_composite, h]

theorem claim_C3_composite_idempotent_witness :
    begin_composite { baseRenderer with is_compositing := true } =
      ([], { baseRenderer with is_compositing := true })
    ∧ end_composite baseRenderer = ([], baseRenderer) :=
  ⟨(claim_C3_composite_idempotent _).1 rfl, (claim_C3_composite_idempotent _).2 rfl⟩

/-- Claim C7: the blend-mode mapping is a pure total function on the seven
modes: every mode yields exactly one (equation, source factor, destination
factor) command pair, the seven pairs are pairwise distinct, and
SliceFromLower is the only mode whose equation is subtractive. -/
theorem claim_C7_blend_mapping :
    (∀ m : BlendMode, ∃ e s d, blendCalls m = [.blendEquation e, .blendFunc s d])
    ∧ (∀ m1 m2 : BlendMode, blendCalls m1 = blendCalls m2 → m1 = m2)
    ∧ (∀ m : BlendMode,
        GlCall.blendEquation GL_FUNC_SUBTRACT ∈ blendCalls m ↔ m = .SliceFromLower) := by
  refine ⟨?_, ?_, ?_⟩
  · intro m; cases m <;> exact ⟨_, _, _, rfl⟩
  · intro m1 m2; cases m1 <;> cases m2 <;> decide
  · intro m; cases m <;> decide

theorem claim_C7_blend_mapping_witness :
    GlCall.blendEquation GL_FUNC_SUBTRACT ∈ blendCalls BlendMode.SliceFromLower
    ∧ BlendMode.Normal = BlendMode.Normal :=
  ⟨(claim_C7_blend_mapping.2.2 BlendMode.SliceFromLower).mpr rfl,
   claim_C7_blend_mapping.2.1 BlendMode.Normal BlendMode.Normal rfl⟩

/-- Claim C2 is refuted: a draw descriptor naming node 1, which is absent from
the hierarchy, panics the draw (Rust unwrap in draw_node) instead of being
skipped. -/
theorem claim_C2_counterexample : (draw_model 3 stX).isCrash = true := by decide

/-- Claim C2 as amended: a node id with no draw-info entry is skipped
defensively in the top-level draw loop and in a composite's child loop, and
drawing continues with the remaining nodes; but a draw-info entry whose node
is absent from the hierarchy panics in draw_node (unwrap), and a mask
reference whose source has no draw-info entry panics in draw_part_mask
(HashMap indexing), after its stencil-setup commands. -/
theorem claim_C2_amended :
    (∀ fuel st u rest, lookupInfo st.nodes_draw_info u = none →
      draw_go (fuel+1) (.rootList (u :: rest)) st = draw_go fuel (.rootList rest) st)
    ∧ (∀ fuel st u rest parent, lookupInfo st.nodes_draw_info u = none →
      draw_go (fuel+1) (.childList (u :: rest) parent) st =
        draw_go fuel (.childList rest parent) st)
    ∧ (∀ fuel st u ndi icc im, st.nodes.getNode u = none →
      draw_go (fuel+1) (.node u ndi icc im) st =
        .crash [] "called unwrap on a None value")
    ∧ (∀ fuel st m icc, lookupInfo st.nodes_draw_info m.source = none →
      draw_go (fuel+1) (.partMask m icc) st =
        .crash [.colorMask false false false false,
                .stencilOp GL_KEEP GL_KEEP GL_REPLACE,
                .stencilFunc GL_ALWAYS (if m.mode = MaskMode.Mask then 1 else 0) 0xff,
                .stencilMask 0xff] "no entry found for key") := by
  refine ⟨?_, ?_, ?_, ?_⟩
  · intro fuel st u rest h; simp [draw_go, h]
  · intro fuel st u rest parent h
    by_cases hp : u = parent <;> simp [draw_go, h, hp]
  · intro fuel st u ndi icc im h; cases ndi <;> simp [draw_go, h]
  · intro fuel st m icc h; simp [draw_go, h, DR.withPre]

theorem claim_C2_amended_witness :
    draw_go 3 (.rootList [5]) baseRenderer = draw_go 2 (.rootList []) baseRenderer
    ∧ draw_go 3 (.childList [5] 9) baseRenderer = draw_go 2 (.childList [] 9) baseRenderer
    ∧ draw_go 3 (.node 5 (.Part 0) false false) baseRenderer =
        .crash [] "called unwrap on a None value"
    ∧ draw_go 3 (.partMask ⟨5, .Mask⟩ false) baseRenderer =
        .crash [.colorMask false false false false,
                .stencilOp GL_KEEP GL_KEEP GL_REPLACE,
                .stencilFunc GL_ALWAYS 1 0xff,
                .stencilMask 0xff] "no entry found for key" := by
  obtain ⟨h1, h2, h3, h4⟩ := claim_C2_amended
  refine ⟨h1 2 baseRenderer 5 [] rfl, h2 2 baseRenderer 5 [] 9 rfl,
    h3 2 baseRenderer 5 (.Part 0) false false rfl, ?_⟩
  have := h4 2 baseRenderer ⟨5, .Mask⟩ false rfl
  simpa using this

theorem mem_infoInsert {m : List (Nat × NodeDrawInfo)} {k : Nat} {v : NodeDrawInfo}
    {x : Nat × NodeDrawInfo} (h : x ∈ infoInsert m k v) : x = (k, v) ∨ x ∈ m := by
  unfold infoInsert at h
  rcases List.mem_cons.mp h with h | h
  · exact Or.inl h
  · exact Or.inr (List.mem_filter.mp h).1

theorem build_children_preserves (tree : InoxNodeTree) :
    ∀ (us : List Nat) (m : List (Nat × NodeDrawInfo)) (cb : BufBuilder)
      (m2 : List (Nat × NodeDrawInfo)) (cb2 : BufBuilder),
      build_children tree us m cb = some (m2, cb2) →
      (∀ u ch, (u, NodeDrawInfo.Composite ch) ∈ m → u ∉ ch) →
      (∀ u ch, (u, NodeDrawInfo.Composite ch) ∈ m2 → u ∉ ch) := by
  intro us
  induction us with
  | nil => intro m cb m2 cb2 h hP; cases h; exact hP
  | cons u us ih =>
    intro m cb m2 cb2 h hP
    unfold build_children at h
    cases hg : tree.getNode u with
    | none => simp only [hg] at h; cases h
    | some node =>
      simp only [hg] at h
      cases hd : node.data with
      | Part p =>
        simp only [hd] at h
        refine ih _ _ _ _ h ?_
        intro u2 ch hmem
        rcases mem_infoInsert hmem with heq | hmem2
        · cases heq
        · exact hP u2 ch hmem2
      | Composite c => simp only [hd] at h; exact ih _ _ _ _ h hP
      | Other => simp only [hd] at h; exact ih _ _ _ _ h hP

theorem build_go_preserves (tree : InoxNodeTree)
    (hcoh : ∀ u n, tree.getNode u = some n → n.uuid = u) :
    ∀ (l : List Nat) (m : List (Nat × NodeDrawInfo)) (pb cb : BufBuilder)
      (m2 : List (Nat × NodeDrawInfo)) (pb2 cb2 : BufBuilder),
      build_go tree l m pb cb = some (m2, pb2, cb2) →
      (∀ u ch, (u, NodeDrawInfo.Composite ch) ∈ m → u ∉ ch) →
      (∀ u ch, (u, NodeDrawInfo.Composite ch) ∈ m2 → u ∉ ch) := by
  intro l
  induction l with
  | nil => intro m pb cb m2 pb2 cb2 h hP; cases h; exact hP
  | cons uuid rest ih =>
    intro m pb cb m2 pb2 cb2 h hP
    unfold build_go at h
    cases hg : tree.getNode uuid with
    | none => simp only [hg] at h; cases h
    | some node =>
      simp only [hg] at h
      cases hd : node.data with
      | Part p =>
        simp only [hd] at h
        refine ih _ _ _ _ _ _ h ?_
        intro u2 ch hmem
        rcases mem_infoInsert hmem with heq | hmem2
        · cases heq
        · exact hP u2 ch hmem2
      | Composite c =>
        simp only [hd] at h
        cases hb : build_children tree
            ((tree.zsortedChild node.uuid).filter (fun u => u ≠ node.uuid)) m cb with
        | none => simp only [hb] at h; cases h
        | some r =>
          obtain ⟨m3, cb3⟩ := r
          simp only [hb] at h
          refine ih _ _ _ _ _ _ h ?_
          intro u2 ch hmem
          rcases mem_infoInsert hmem with heq | hmem2
          · rw [Prod.mk.injEq] at heq
            obtain ⟨hu, hv⟩ := heq
            rw [NodeDrawInfo.Composite.injEq] at hv
            subst hu; subst hv
            intro hmemf
            have hpn := (List.mem_filter.mp hmemf).2
            rw [hcoh u2 node hg] at hpn
            simp at hpn
          · exact build_children_preserves tree _ _ _ _ _ hb hP u2 ch hmem2
      | Other => rw [hd] at h; exact ih _ _ _ _ _ _ h hP

/-- Inversion for sequencing: a successful composite run splits into a
successful first run and a successful continuation with concatenated traces. -/
theorem DR.andThen_ok {σ : Type} {r : DR σ} {k : σ → DR σ} {tr : List GlCall} {st2 : σ}
    (h : r.andThen k = .ok tr st2) :
    ∃ tr1 stm tr2, r = .ok tr1 stm ∧ k stm = .ok tr2 st2 ∧ tr = tr1 ++ tr2 := by
  cases r with
  | ok tr1 stm =>
    cases hk : k stm with
    | ok tr2 st3 =>
      simp only [DR.andThen] at h
      rw [hk] at h
      injection h with h1 h2
      exact ⟨tr1, stm, tr2, rfl, by rw [hk, h2], h1.symm⟩
    | crash tr2 m =>
      simp only [DR.andThen] at h
      rw [hk] at h
      cases h
  | crash tr1 m => simp only [DR.andThen] at h; cases h

/-- Inversion for a prefixed run. -/
theorem DR.withPre_ok {σ : Type} {pre : List GlCall} {r : DR σ} {tr : List GlCall} {st2 : σ}
    (h : DR.withPre pre r = .ok tr st2) :
    ∃ tr1, r = .ok tr1 st2 ∧ tr = pre ++ tr1 := by
  cases r with
  | ok tr1 stm => simp only [DR.withPre] at h; injection h with h1 h2; exact ⟨tr1, by rw [h2], h1.symm⟩
  | crash tr1 m => simp only [DR.withPre] at h; cases h

/-- Structure of every successful draw_part run: debug group, mask phase,
texture binds, blend-mode calls, then the shader uniforms (mask shader with
clamped threshold when is_mask, else the part shader with the raw opacity,
tint and screen-tint), the geometry bind, the indexed draw, and the closing
stencil restore / debug pop. -/
theorem draw_part_decomp {f : Nat} {st : Renderer} {node : InoxNode} {p : Part}
    {off : Nat} {icc im : Bool} {tr : List GlCall} {st2 : Renderer}
    (h : draw_go (f+1) (.part node p off icc im) st = .ok tr st2) :
    ∃ trMP trBT trBM,
      tr = [.pushDebugGroup node.name] ++ trMP ++ trBT ++ trBM ++
           (if im then
              [.useProgram st2.part_mask_shader,
               .setOffset ShaderKind.partMask (partOffset st2.nodes node.uuid),
               .setThreshold ShaderKind.partMask (ratClamp p.draw_state.mask_threshold 0 1)]
            else
              [.useProgram st2.part_shader,
               .setOffset ShaderKind.part (partOffset st2.nodes node.uuid),
               .setOpacity ShaderKind.part p.draw_state.opacity,
               .setMultColor ShaderKind.part p.draw_state.tint,
               .setScreenColor ShaderKind.part p.draw_state.screen_tint]) ++
           [(if icc then GlCall.bindCompositeBufs else GlCall.bindPartBufs),
            .drawElements GL_TRIANGLES p.mesh.indices.length GL_UNSIGNED_SHORT (off * 2)] ++
           (if p.draw_state.masks.isEmpty then [GlCall.popDebugGroup]
            else [.stencilMask 0xff, .stencilFunc GL_ALWAYS 1 0xff,
                  .disable GL_STENCIL_TEST, .popDebugGroup]) := by
  unfold draw_go at h
  obtain ⟨trA, stm, trB, h1, h2, htr⟩ := DR.andThen_ok h
  obtain ⟨trMP, hMP, hA⟩ := DR.withPre_ok h1
  obtain ⟨trBT, stm3, trC, h3, h4, htrB⟩ := DR.andThen_ok h2
  simp only at h4
  injection h4 with h5 h6
  refine ⟨trMP, trBT, (set_blend_mode stm3.cache p.draw_state.blend_mode).1, ?_⟩
  subst htr hA htrB h5
  rw [← h6]
  simp [List.append_assoc]

/-- Structure of every successful draw_composite run on a non-empty child
list: after compositing the children, the composite shader is bound and
receives the clamped opacity, tint and screen-tint, then the full-surface
quad is drawn. -/
theorem draw_composite_decomp {f : Nat} {st : Renderer} {node : InoxNode} {comp : Composite}
    {children : List Nat} {tr : List GlCall} {st2 : Renderer}
    (hne : children ≠ [])
    (h : draw_go (f+1) (.composite node comp children) st = .ok tr st2) :
    ∃ pre,
      tr = pre ++
        [.useProgram st2.composite_shader,
         .setOpacity ShaderKind.composite (ratClamp comp.draw_state.opacity 0 1),
         .setMultColor ShaderKind.composite (vec3Clamp01 comp.draw_state.tint),
         .setScreenColor ShaderKind.composite (vec3Clamp01 comp.draw_state.screen_tint),
         .bindCompositeBufs,
         .drawElements GL_TRIANGLES 6 GL_UNSIGNED_SHORT 0,
         .popDebugGroup] := by
  unfold draw_go at h
  rw [if_neg (by simp [hne])] at h
  obtain ⟨trA, stm, trB, h1, h2, htr⟩ := DR.andThen_ok h
  obtain ⟨trC, stm3, trD, h3, h4, htrB⟩ := DR.andThen_ok h2
  obtain ⟨trE, stm4, trF, h5, h6, htrD⟩ := DR.andThen_ok h4
  simp only at h6
  injection h6 with h7 h8
  refine ⟨trA ++ trC ++ trE ++
    [.activeTexture GL_TEXTURE0, .bindTexture GL_TEXTURE_2D (some stm4.cf_albedo),
     .activeTexture GL_TEXTURE1, .bindTexture GL_TEXTURE_2D (some stm4.cf_emissive),
     .activeTexture GL_TEXTURE2, .bindTexture GL_TEXTURE_2D (some stm4.cf_bump)] ++
    (set_blend_mode stm4.cache comp.draw_state.blend_mode).1, ?_⟩
  subst htr htrB htrD
  rw [← h7, ← h8]
  simp [List.append_assoc]

/-- A successful draw_part_mask run is exactly a maskBlock around a draw of
the mask's source node as found in the draw-info map. -/
theorem draw_partMask_ok {f : Nat} {st : Renderer} {m : Mask} {icc : Bool}
    {tr : List GlCall} {st2 : Renderer}
    (h : draw_go f (.partMask m icc) st = .ok tr st2) :
    ∃ seg ndi fn,
      lookupInfo st.nodes_draw_info m.source = some ndi ∧
      draw_go fn (.node m.source ndi icc true) st = .ok seg st2 ∧
      tr = maskBlock m seg := by
  cases f with
  | zero => unfold draw_go at h; cases h
  | succ f =>
    unfold draw_go at h
    cases hl : lookupInfo st.nodes_draw_info m.source with
    | none =>
      rw [hl] at h
      simp only [DR.withPre] at h
      cases h
    | some ndi =>
      rw [hl] at h
      obtain ⟨tr1, hin, htr⟩ := DR.withPre_ok h
      obtain ⟨trS, stm, trE, hS, hE, htr1⟩ := DR.andThen_ok hin
      injection hE with hE1 hE2
      subst hE2
      refine ⟨trS, ndi, f, rfl, hS, ?_⟩
      subst htr htr1
      rw [← hE1]
      simp [maskBlock, List.append_assoc]

/-- A successful run of the mask loop is the concatenation of one maskBlock
per mask, each wrapping a draw of that mask's source node (MaskSegsOk). -/
theorem draw_maskList_ok :
    ∀ (ms : List Mask) (f : Nat) (st : Renderer) (icc : Bool) (tr : List GlCall)
      (st2 : Renderer),
      draw_go f (.maskList ms icc) st = .ok tr st2 →
      ∃ segs : List (List GlCall),
        segs.length = ms.length ∧
        tr = ((ms.zip segs).map (fun q => maskBlock q.1 q.2)).flatten ∧
        MaskSegsOk icc st ms segs st2 := by
  intro ms
  induction ms with
  | nil =>
    intro f st icc tr st2 h
    cases f with
    | zero => unfold draw_go at h; cases h
    | succ f =>
      unfold draw_go at h
      injection h with h1 h2
      exact ⟨[], rfl, by rw [← h1]; rfl, rfl, h2.symm⟩
  | cons m rest ih =>
    intro f st icc tr st2 h
    cases f with
    | zero => unfold draw_go at h; cases h
    | succ f =>
      unfold draw_go at h
      obtain ⟨trA, stm, trB, h1, h2, htr⟩ := DR.andThen_ok h
      obtain ⟨segA, ndi, fn, hl, hdraw, hA⟩ := draw_partMask_ok h1
      obtain ⟨segs, hlen, hB, hok⟩ := ih f stm icc trB st2 h2
      refine ⟨segA :: segs, by simp [hlen], ?_, segA, segs, ndi, stm, fn, rfl, hl, hdraw, hok⟩
      subst htr hA hB
      simp

/-- Claim C5: when a part's mask list is non-empty, the part draw enables
stencil testing and clears the stencil buffer to 1 if no masks are present
else 0 (hence 0 here); it draws each mask reference's source node with color
writes disabled under stencil function always-pass, writing 1 when the mask's
mode is Mask and 0 when it is Dodge; after all mask sources it switches to the
content test pass-only-where-stencil-equals-1 with stencil writes disabled,
and after the content draw restores default stencil state (testing disabled,
write mask and function reset). -/
theorem claim_C5_mask_stencil_protocol {f : Nat} {st : Renderer} {node : InoxNode}
    {p : Part} {off : Nat} {icc im : Bool} {tr : List GlCall} {st2 : Renderer}
    (hm : p.draw_state.masks ≠ [])
    (h : draw_part (f+1) st node p off icc im = .ok tr st2) :
    ∃ segs mid stm,
      segs.length = p.draw_state.masks.length ∧
      MaskSegsOk icc st p.draw_state.masks segs stm ∧
      tr = [.pushDebugGroup node.name, .pushDebugGroup "Masks",
            .enable GL_STENCIL_TEST, .clearStencil 0, .clear GL_STENCIL_BUFFER_BIT] ++
           ((p.draw_state.masks.zip segs).map (fun q => maskBlock q.1 q.2)).flatten ++
           [.popDebugGroup, .stencilFunc GL_EQUAL 1 0xff, .stencilMask 0x00] ++
           mid ++
           [.stencilMask 0xff, .stencilFunc GL_ALWAYS 1 0xff, .disable GL_STENCIL_TEST,
            .popDebugGroup] := by
  have hme : p.draw_state.masks.isEmpty = false := by
    cases hk : p.draw_state.masks
    · exact absurd hk hm
    · rfl
  unfold draw_part at h
  unfold draw_go at h
  simp only [PartDrawState.has_masks, hme, Bool.not_false, Bool.false_eq_true, if_false,
    if_true, ite_true, ite_false] at h
  obtain ⟨trA, stm0, trB, h1, h2, htr⟩ := DR.andThen_ok h
  obtain ⟨tr1, hmp, hA⟩ := DR.withPre_ok h1
  obtain ⟨tr2, hin, hA1⟩ := DR.withPre_ok hmp
  obtain ⟨trJ, stmm, trE, hJ, hEk, htr2⟩ := DR.andThen_ok hin
  injection hEk with hE1 hE2
  obtain ⟨segs, hlen, hJoin, hsegok⟩ := draw_maskList_ok _ _ _ _ _ _ hJ
  obtain ⟨trBT, stm3, trC, h3, h4, htrB⟩ := DR.andThen_ok h2
  injection h4 with h5 h6
  subst h6
  refine ⟨segs, trBT ++ (set_blend_mode stm3.cache p.draw_state.blend_mode).1 ++
    (if im then
      [.useProgram stm3.part_mask_shader,
       .setOffset ShaderKind.partMask (partOffset stm3.nodes node.uuid),
       .setThreshold ShaderKind.partMask (ratClamp p.draw_state.mask_threshold 0 1)]
     else
      [.useProgram stm3.part_shader,
       .setOffset ShaderKind.part (partOffset stm3.nodes node.uuid),
       .setOpacity ShaderKind.part p.draw_state.opacity,
       .setMultColor ShaderKind.part p.draw_state.tint,
       .setScreenColor ShaderKind.part p.draw_state.screen_tint]) ++
    [(if icc then GlCall.bindCompositeBufs else GlCall.bindPartBufs),
     .drawElements GL_TRIANGLES p.mesh.indices.length GL_UNSIGNED_SHORT (off * 2)],
    stmm, hlen, ?_, ?_⟩
  · subst hE2; exact hsegok
  · subst htr hA hA1 htr2 htrB hJoin
    rw [← h5, ← hE1]
    cases im <;> cases icc <;> simp [List.append_assoc]

theorem claim_C5_mask_stencil_protocol_witness :
    ∃ tr st2,
      draw_part 5 stP node4m p4 3 false false = .ok tr st2 ∧
      ∃ segs mid stm,
        segs.length = p4.draw_state.masks.length ∧
        MaskSegsOk false stP p4.draw_state.masks segs stm ∧
        tr = [.pushDebugGroup node4m.name, .pushDebugGroup "Masks",
              .enable GL_STENCIL_TEST, .clearStencil 0, .clear GL_STENCIL_BUFFER_BIT] ++
             ((p4.draw_state.masks.zip segs).map (fun q => maskBlock q.1 q.2)).flatten ++
             [.popDebugGroup, .stencilFunc GL_EQUAL 1 0xff, .stencilMask 0x00] ++
             mid ++
             [.stencilMask 0xff, .stencilFunc GL_ALWAYS 1 0xff, .disable GL_STENCIL_TEST,
              .popDebugGroup] :=
  ⟨_, _, rfl, @claim_C5_mask_stencil_protocol 4 stP node4m p4 3 false false _ _ (by decide) rfl⟩

/-- Claim C6: the offset uniform for a part draw equals the sum of the
translation components along the part's ancestor chain - the part's own
translation plus every ancestor's translation - and ancestors' rotation and
scale components contribute nothing: two hierarchies agreeing on the chain
and on every node's translation yield the same offset, and the value passed
to the shader's offset uniform is exactly this partOffset. -/
theorem claim_C6_ancestor_offset (tree : InoxNodeTree) (uuid : Nat) (node : InoxNode)
    (rest : List Nat)
    (hn : tree.getNode uuid = some node)
    (ha : tree.ancestors uuid = uuid :: rest) :
    partOffset tree uuid =
      (node.transform.translation.add
        (vec3Sum ((rest.filterMap tree.getNode).map
          (fun a => a.transform.translation)))).truncate
    ∧ (∀ tree2 : InoxNodeTree,
        tree2.ancestors uuid = tree.ancestors uuid →
        (∀ u, (tree2.getNode u).map (fun nd => nd.transform.translation) =
              (tree.getNode u).map (fun nd => nd.transform.translation)) →
        partOffset tree2 uuid = partOffset tree uuid)
    ∧ (∀ (f : Nat) (st : Renderer) (p : Part) (off : Nat) (icc im : Bool)
         (tr : List GlCall) (st2 : Renderer),
        draw_part (f+1) st node p off icc im = .ok tr st2 →
        ∃ pre post,
          tr = pre ++
            [.setOffset (if im then ShaderKind.partMask else ShaderKind.part)
              (partOffset st2.nodes node.uuid)] ++ post) := by
  refine ⟨?_, ?_, ?_⟩
  · unfold partOffset
    rw [ha, List.filterMap_cons, hn]
    simp [vec3Sum]
  · intro tree2 ha2 ht
    unfold partOffset
    rw [ha2]
    have hfg : (fun u => (tree2.getNode u).map (fun nd => nd.transform.translation)) =
        (fun u => (tree.getNode u).map (fun nd => nd.transform.translation)) := funext ht
    rw [List.map_filterMap, List.map_filterMap, hfg]
  · intro f st p off icc im tr st2 h
    obtain ⟨trMP, trBT, trBM, htr⟩ := draw_part_decomp h
    cases im with
    | true =>
      refine ⟨[.pushDebugGroup node.name] ++ trMP ++ trBT ++ trBM ++
        [.useProgram st2.part_mask_shader], ?_, ?_⟩
      · exact [.setThreshold ShaderKind.partMask (ratClamp p.draw_state.mask_threshold 0 1)] ++
          [(if icc then GlCall.bindCompositeBufs else GlCall.bindPartBufs),
           .drawElements GL_TRIANGLES p.mesh.indices.length GL_UNSIGNED_SHORT (off * 2)] ++
          (if p.draw_state.masks.isEmpty then [GlCall.popDebugGroup]
           else [.stencilMask 0xff, .stencilFunc GL_ALWAYS 1 0xff,
                 .disable GL_STENCIL_TEST, .popDebugGroup])
      · subst htr; simp [List.append_assoc]
    | false =>
      refine ⟨[.pushDebugGroup node.name] ++ trMP ++ trBT ++ trBM ++
        [.useProgram st2.part_shader], ?_, ?_⟩
      · exact [.setOpacity ShaderKind.part p.draw_state.opacity,
          .setMultColor ShaderKind.part p.draw_state.tint,
          .setScreenColor ShaderKind.part p.draw_state.screen_tint] ++
          [(if icc then GlCall.bindCompositeBufs else GlCall.bindPartBufs),
           .drawElements GL_TRIANGLES p.mesh.indices.length GL_UNSIGNED_SHORT (off * 2)] ++
          (if p.draw_state.masks.isEmpty then [GlCall.popDebugGroup]
           else [.stencilMask 0xff, .stencilFunc GL_ALWAYS 1 0xff,
                 .disable GL_STENCIL_TEST, .popDebugGroup])
      · subst htr; simp [List.append_assoc]

theorem claim_C6_ancestor_offset_witness :
    partOffset tree6 2 = ⟨11, 22⟩
    ∧ partOffset tree6b 2 = partOffset tree6 2
    ∧ (∃ tr st2, draw_part 1 stP6 node6p part4 0 false false = .ok tr st2 ∧
        ∃ pre post,
          tr = pre ++ [.setOffset ShaderKind.part (partOffset st2.nodes node6p.uuid)] ++ post) := by
  have h := claim_C6_ancestor_offset tree6 2 node6p [1] rfl rfl
  refine ⟨?_, ?_, ?_⟩
  · rw [h.1]
    simp only [node6p, node6root, tree6, List.filterMap, Vec3.zero]
    norm_num [vec3Sum, Vec3.add, Vec3.truncate, Vec3.zero]
  · exact h.2.1 tree6b rfl (by
      intro u
      simp only [tree6, tree6b]
      split_ifs <;> rfl)
  · refine ⟨_, _, rfl, ?_⟩
    have h3 := h.2.2 0 stP6 part4 0 false false _ _ rfl
    simpa using h3

/-- Claim C10: for every composite draw, the opacity, tint and screen-tint
uniform values passed to the composite shader are clamped to [0, 1]
(componentwise for the tint vectors) before being set, and for every mask
draw the mask threshold uniform is clamped to [0, 1]; by contrast, a
non-mask part draw passes the part's opacity, tint and screen-tint to the
part shader unclamped (the raw draw-state values). -/
theorem claim_C10_uniform_clamping :
    (∀ (f : Nat) (st : Renderer) (node : InoxNode) (comp : Composite)
       (children : List Nat) (tr : List GlCall) (st2 : Renderer),
      children ≠ [] →
      draw_composite (f+1) st node comp children = .ok tr st2 →
      ∃ pre,
        tr = pre ++
          [.useProgram st2.composite_shader,
           .setOpacity ShaderKind.composite (ratClamp comp.draw_state.opacity 0 1),
           .setMultColor ShaderKind.composite (vec3Clamp01 comp.draw_state.tint),
           .setScreenColor ShaderKind.composite (vec3Clamp01 comp.draw_state.screen_tint),
           .bindCompositeBufs,
           .drawElements GL_TRIANGLES 6 GL_UNSIGNED_SHORT 0,
           .popDebugGroup])
    ∧ (∀ (f : Nat) (st : Renderer) (node : InoxNode) (p : Part) (off : Nat) (icc : Bool)
         (tr : List GlCall) (st2 : Renderer),
        draw_part (f+1) st node p off icc true = .ok tr st2 →
        ∃ pre post,
          tr = pre ++
            [.useProgram st2.part_mask_shader,
             .setOffset ShaderKind.partMask (partOffset st2.nodes node.uuid),
             .setThreshold ShaderKind.partMask (ratClamp p.draw_state.mask_threshold 0 1)] ++
            post)
    ∧ (∀ (f : Nat) (st : Renderer) (node : InoxNode) (p : Part) (off : Nat) (icc : Bool)
         (tr : List GlCall) (st2 : Renderer),
        draw_part (f+1) st node p off icc false = .ok tr st2 →
        ∃ pre post,
          tr = pre ++
            [.useProgram st2.part_shader,
             .setOffset ShaderKind.part (partOffset st2.nodes node.uuid),
             .setOpacity ShaderKind.part p.draw_state.opacity,
             .setMultColor ShaderKind.part p.draw_state.tint,
             .setScreenColor ShaderKind.part p.draw_state.screen_tint] ++
            post) := by
  refine ⟨?_, ?_, ?_⟩
  · intro f st node comp children tr st2 hne h
    exact draw_composite_decomp hne h
  · intro f st node p off icc tr st2 h
    obtain ⟨trMP, trBT, trBM, htr⟩ := draw_part_decomp h
    refine ⟨[.pushDebugGroup node.name] ++ trMP ++ trBT ++ trBM,
      [(if icc then GlCall.bindCompositeBufs else GlCall.bindPartBufs),
       .drawElements GL_TRIANGLES p.mesh.indices.length GL_UNSIGNED_SHORT (off * 2)] ++
      (if p.draw_state.masks.isEmpty then [GlCall.popDebugGroup]
       else [.stencilMask 0xff, .stencilFunc GL_ALWAYS 1 0xff,
             .disable GL_STENCIL_TEST, .popDebugGroup]), ?_⟩
    subst htr; simp [List.append_assoc]
  · intro f st node p off icc tr st2 h
    obtain ⟨trMP, trBT, trBM, htr⟩ := draw_part_decomp h
    refine ⟨[.pushDebugGroup node.name] ++ trMP ++ trBT ++ trBM,
      [(if icc then GlCall.bindCompositeBufs else GlCall.bindPartBufs),
       .drawElements GL_TRIANGLES p.mesh.indices.length GL_UNSIGNED_SHORT (off * 2)] ++
      (if p.draw_state.masks.isEmpty then [GlCall.popDebugGroup]
       else [.stencilMask 0xff, .stencilFunc GL_ALWAYS 1 0xff,
             .disable GL_STENCIL_TEST, .popDebugGroup]), ?_⟩
    subst htr; simp [List.append_assoc]

theorem claim_C10_uniform_clamping_witness :
    (∃ tr st2, draw_composite 5 stComp node1c comp1 [3] = .ok tr st2 ∧
      ∃ pre,
        tr = pre ++
          [.useProgram st2.composite_shader,
           .setOpacity ShaderKind.composite (ratClamp comp1.draw_state.opacity 0 1),
           .setMultColor ShaderKind.composite (vec3Clamp01 comp1.draw_state.tint),
           .setScreenColor ShaderKind.composite (vec3Clamp01 comp1.draw_state.screen_tint),
           .bindCompositeBufs,
           .drawElements GL_TRIANGLES 6 GL_UNSIGNED_SHORT 0,
           .popDebugGroup])
    ∧ (∃ tr st2, draw_part 1 stP node3 p3 0 false true = .ok tr st2 ∧
        ∃ pre post,
          tr = pre ++
            [.useProgram st2.part_mask_shader,
             .setOffset ShaderKind.partMask (partOffset st2.nodes node3.uuid),
             .setThreshold ShaderKind.partMask (ratClamp p3.draw_state.mask_threshold 0 1)] ++
            post)
    ∧ (∃ tr st2, draw_part 1 stP node3 p3 0 false false = .ok tr st2 ∧
        ∃ pre post,
          tr = pre ++
            [.useProgram st2.part_shader,
             .setOffset ShaderKind.part (partOffset st2.nodes node3.uuid),
             .setOpacity ShaderKind.part p3.draw_state.opacity,
             .setMultColor ShaderKind.part p3.draw_state.tint,
             .setScreenColor ShaderKind.part p3.draw_state.screen_tint] ++
            post) :=
  ⟨⟨_, _, rfl, claim_C10_uniform_clamping.1 4 stComp node1c comp1 [3] _ _ (by decide) rfl⟩,
   ⟨_, _, rfl, claim_C10_uniform_clamping.2.1 0 stP node3 p3 0 false _ _ rfl⟩,
   ⟨_, _, rfl, claim_C10_uniform_clamping.2.2 0 stP node3 p3 0 false _ _ rfl⟩⟩

/-- GlCache::update_camera never touches the cached viewport. -/
theorem update_camera_viewport_stable (c : GlCache) (cam : Camera) :
    (c.update_camera cam).2.viewport = c.viewport := by
  unfold GlCache.update_camera
  cases c.camera <;> simp

/-- Claim C8 is refuted: resizing to the very size already cached (with the
camera also cached) issues no MVP uniform refresh at all, although the claim
says resize refreshes the MVP on all four programs regardless of the cache. -/
theorem claim_C8_counterexample :
    (Renderer.resize stC8 7 9).1.all (fun c => !isMvpCall c) = true
    ∧ stC8.cache.camera = some stC8.camera
    ∧ stC8.cache.viewport = some (7, 9) := by decide

/-- Claim C8 as amended: resize(w, h) sets the stored viewport to (w, h),
reallocates the three offscreen color targets and the depth/stencil target at
the new size and reattaches them to the composite framebuffer; it refreshes
the MVP uniform on all four shader programs only when the cache reports the
camera or the viewport changed, and issues no MVP call when the cached camera
and viewport already equal the new values. -/
theorem claim_C8_amended (st : Renderer) (w h : Nat) :
    (Renderer.resize st w h).2.viewport = (w, h)
    ∧ (∃ rest, (Renderer.resize st w h).1 =
        [.viewportCall 0 0 (w : Int) (h : Int),
         .uploadEmpty st.cf_albedo w h GL_UNSIGNED_BYTE,
         .uploadEmpty st.cf_emissive w h GL_FLOAT,
         .uploadEmpty st.cf_bump w h GL_UNSIGNED_BYTE,
         .bindTexture GL_TEXTURE_2D (some st.cf_stencil),
         .texImage2D GL_TEXTURE_2D 0 GL_DEPTH24_STENCIL8 (w : Int) (h : Int) 0
           GL_DEPTH_STENCIL GL_UNSIGNED_INT_24_8] ++
        attach_framebuffer_textures st ++ rest)
    ∧ (st.cache.camera = some st.camera → st.cache.viewport = some (w, h) →
        (Renderer.resize st w h).1.all (fun c => !isMvpCall c) = true)
    ∧ ((st.cache.update_camera st.camera).1 = true ∨ st.cache.viewport ≠ some (w, h) →
        ∀ k : ShaderKind, GlCall.setMvp k st.camera w h ∈ (Renderer.resize st w h).1) := by
  refine ⟨?_, ?_, ?_, ?_⟩
  · unfold Renderer.resize Renderer.update_camera
    dsimp only
    split_ifs <;> rfl
  · refine ⟨(Renderer.update_camera { st with viewport := (w, h) }).2.1, ?_⟩
    unfold Renderer.resize
    simp [attach_framebuffer_textures]
  · intro h1 h2
    have hc : (st.cache.update_camera st.camera).1 = false := by
      cases hb : (st.cache.update_camera st.camera).1
      · rfl
      · exact absurd ((update_camera_fst st.cache st.camera).mp hb st.camera h1)
          (by simp)
    have hv : ((st.cache.update_camera st.camera).2.update_viewport (w, h)).1 = false := by
      cases hb : ((st.cache.update_camera st.camera).2.update_viewport (w, h)).1
      · rfl
      · exact absurd ((update_viewport_fst _ _).mp hb)
          (by rw [update_camera_viewport_stable]; simp [h2])
    unfold Renderer.resize Renderer.update_camera
    simp [hc, hv, attach_framebuffer_textures, isMvpCall]
  · intro hch k
    by_cases hb : (st.cache.update_camera st.camera).1 = true
    · unfold Renderer.resize Renderer.update_camera
      simp only [hb]
      cases k <;> simp [mvpCalls]
    · have hvne : st.cache.viewport ≠ some (w, h) := by
        rcases hch with hc | hv
        · exact absurd hc hb
        · exact hv
      have hbf : (st.cache.update_camera st.camera).1 = false := by
        cases hx : (st.cache.update_camera st.camera).1
        · rfl
        · exact absurd hx hb
      have hvt : ((st.cache.update_camera st.camera).2.update_viewport (w, h)).1 = true :=
        (update_viewport_fst _ _).mpr (by rw [update_camera_viewport_stable]; exact hvne)
      unfold Renderer.resize Renderer.update_camera
      simp only [hbf, hvt]
      cases k <;> simp [mvpCalls]

theorem claim_C8_amended_witness :
    (Renderer.resize stC8 7 9).1.all (fun c => !isMvpCall c) = true
    ∧ GlCall.setMvp ShaderKind.part baseRenderer.camera 5 6 ∈ (Renderer.resize baseRenderer 5 6).1
    ∧ (Renderer.resize baseRenderer 5 6).2.viewport = (5, 6) := by
  obtain ⟨hva, hrest, h3, h4⟩ := claim_C8_amended stC8 7 9
  obtain ⟨hv, hrest2, h3b, h4b⟩ := claim_C8_amended baseRenderer 5 6
  exact ⟨h3 rfl rfl, h4b (Or.inr (by decide)) ShaderKind.part, hv⟩

/-- Claim C9 is refuted on its GPU-upload half: with two decodable textures
where the upload of the first fails, the whole call returns the error and the
second texture is never uploaded, instead of omitting the failing texture and
continuing. -/
theorem claim_C9_counterexample :
    upload_model_textures decode9 fromRaw9 [] [mtexBadUpload, mtexGood2] =
      ([], [], some "gl upload failed") := by decide

/-- Claim C9 as amended: a texture whose byte stream fails to decode is
logged and omitted while all remaining textures are still decoded and
uploaded and the call does not fail; but a GPU upload failure aborts the
whole call with that error, keeping the textures uploaded before the failure
and uploading none of the remaining images. -/
theorem claim_C9_amended :
    (∀ (decode : ModelTexture → Except String DecodedImage) (mtexs : List ModelTexture),
      decode_phase decode mtexs = (decodedOk decode mtexs, decodeLogs decode mtexs))
    ∧ (∀ (fromRaw : DecodedImage → Except String Nat) (imgs : List DecodedImage)
         (texs : List Nat),
        (∀ i ∈ imgs, (fromRaw i).isOk = true) →
        upload_phase fromRaw imgs texs =
          (texs ++ imgs.filterMap
            (fun i => match fromRaw i with | .ok t => some t | .error _ => none), none))
    ∧ (∀ (fromRaw : DecodedImage → Except String Nat) (imgs1 : List DecodedImage)
         (bad : DecodedImage) (imgs2 : List DecodedImage) (texs texs1 : List Nat)
         (e : String),
        upload_phase fromRaw imgs1 texs = (texs1, none) →
        fromRaw bad = .error e →
        upload_phase fromRaw (imgs1 ++ bad :: imgs2) texs = (texs1, some e)) := by
  refine ⟨?_, ?_, ?_⟩
  · intro decode mtexs
    induction mtexs with
    | nil => rfl
    | cons mt rest ih =>
      cases hd : decode mt <;>
        simp [decode_phase, decodedOk, decodeLogs, List.filterMap_cons, hd, ih]
  · intro fromRaw imgs
    induction imgs with
    | nil => intro texs hall; simp [upload_phase]
    | cons i rest ih =>
      intro texs hall
      have hi := hall i (List.mem_cons_self i rest)
      cases hr : fromRaw i with
      | error e => rw [hr] at hi; cases hi
      | ok t =>
        have := ih (texs ++ [t]) (fun j hj => hall j (List.mem_cons_of_mem i hj))
        simp [upload_phase, hr, List.filterMap_cons, this, List.append_assoc]
  · intro fromRaw imgs1
    induction imgs1 with
    | nil =>
      intro bad imgs2 texs texs1 e h hbad
      unfold upload_phase at h
      injection h with h1 h2
      subst h1
      simp [upload_phase, hbad]
    | cons i is1 ih =>
      intro bad imgs2 texs texs1 e h hbad
      unfold upload_phase at h
      cases hr : fromRaw i with
      | error e2 => rw [hr] at h; injection h with h1 h2; cases h2
      | ok t =>
        rw [hr] at h
        have := ih bad imgs2 (texs ++ [t]) texs1 e h hbad
        simp [upload_phase, hr, this]

theorem claim_C9_amended_witness :
    decode_phase decode9 [mtexGood1, mtexBadDecode, mtexGood2] =
      (decodedOk decode9 [mtexGood1, mtexBadDecode, mtexGood2],
       decodeLogs decode9 [mtexGood1, mtexBadDecode, mtexGood2])
    ∧ upload_phase fromRaw9 [⟨[1], 1, 1⟩] [] =
        ([] ++ [(⟨[1], 1, 1⟩ : DecodedImage)].filterMap
          (fun i => match fromRaw9 i with | .ok t => some t | .error _ => none), none)
    ∧ upload_phase fromRaw9 ([] ++ (⟨[9], 1, 1⟩ : DecodedImage) :: [⟨[2], 1, 1⟩]) [] =
        ([], some "gl upload failed") :=
  ⟨claim_C9_amended.1 decode9 [mtexGood1, mtexBadDecode, mtexGood2],
   claim_C9_amended.2.1 fromRaw9 [⟨[1], 1, 1⟩] [] (by decide),
   claim_C9_amended.2.2 fromRaw9 [] ⟨[9], 1, 1⟩ [⟨[2], 1, 1⟩] [] [] "gl upload failed"
     rfl rfl⟩


/-- Claim C4: for every loaded hierarchy (one whose node lookup is keyed
consistently: getNode u returns a node whose uuid is u), including one in
which a composite lists its own id among its z-sorted children, the
composite's resolved draw-descriptor child list never contains the
composite's own id after load-time filtering; and at draw time a child entry
equal to the composite's own id is additionally skipped (the child loop
steps over it without drawing). -/
theorem claim_C4_no_self_child (tree : InoxNodeTree)
    (hcoh : ∀ u n, tree.getNode u = some n → n.uuid = u)
    (m : List (Nat × NodeDrawInfo)) (pb cb : BufBuilder)
    (hb : build_draw_info tree = some (m, pb, cb)) :
    (∀ u ch, (u, NodeDrawInfo.Composite ch) ∈ m → u ∉ ch)
    ∧ (∀ (fuel : Nat) (st : Renderer) (rest : List Nat) (parent : Nat),
        draw_go (fuel+1) (.childList (parent :: rest) parent) st =
          draw_go fuel (.childList rest parent) st) := by
  constructor
  · exact build_go_preserves tree hcoh tree.zsortedRoot [] {} {} m pb cb hb (by simp)
  · intro fuel st rest parent
    simp [draw_go]

theorem claim_C4_no_self_child_witness :
    (∃ m pb cb, build_draw_info tree4 = some (m, pb, cb)
      ∧ ∀ u ch, (u, NodeDrawInfo.Composite ch) ∈ m → u ∉ ch)
    ∧ draw_go 3 (.childList [1, 2] 1) baseRenderer =
        draw_go 2 (.childList [2] 1) baseRenderer := by
  have hcoh : ∀ u n, tree4.getNode u = some n → n.uuid = u := by
    intro u n h
    simp only [tree4] at h
    split_ifs at h with h1 h2
    · subst h1; injection h with h3; rw [← h3]; rfl
    · subst h2; injection h with h3; rw [← h3]; rfl
  obtain ⟨h1, h2⟩ := claim_C4_no_self_child tree4 hcoh _ _ _ rfl
  exact ⟨⟨_, _, _, rfl, h1⟩, h2 2 baseRenderer [2] 1⟩

end Inox
